import Mathlib

/-!
# stepAI: the step-exchange ledger and the GPIO switch demo

A shallow embedding of `main/stepAI.c` (the step-to-minutes exchange screen)
and of `button_demo/main/stepAI.c` (the GPIO switch screen).

The C globals become fields of a state record that every function takes and
returns.  `uint32_t` values are natural numbers, and every arithmetic operator
the C code applies to them is reduced modulo `2 ^ 32` explicitly.  An LVGL
label pointer is an `Option`: `none` is `NULL`, `some l` is a live label with
its text and text colour.  Layout and styling calls that never feed back into
the program, and the `ESP_LOG*` lines, are left out.
-/

namespace StepAI

/-! ## 32-bit unsigned arithmetic -/

/-- Number of values of a `uint32_t`. -/
def UINT32_RANGE : Nat := 2 ^ 32

/-- C `a * b` on `uint32_t` operands. -/
def u32_mul (a b : Nat) : Nat := (a * b) % UINT32_RANGE

/-- C `a + b` on `uint32_t` operands. -/
def u32_add (a b : Nat) : Nat := (a + b) % UINT32_RANGE

/-- C `a - b` on `uint32_t` operands (wraps when `b` exceeds `a`). -/
def u32_sub (a b : Nat) : Nat :=
  (a % UINT32_RANGE + (UINT32_RANGE - b % UINT32_RANGE)) % UINT32_RANGE

/-! ## Exchange screen (`main/stepAI.c`) -/

/-- The macro `STEPS_PER_MINUTE`: 1000 steps buy one minute. -/
def STEPS_PER_MINUTE : Nat := 1000

/-- An LVGL label, reduced to what the program sets on it. -/
structure lv_obj_t where
  text : String
  text_color : Nat
  deriving DecidableEq, Repr

/-- The file-scope variables of `main/stepAI.c`. -/
structure Globals where
  g_total_steps : Nat
  g_exchanged_minutes : Nat
  g_exchangeable_minutes : Nat
  g_exchange_value_label : Option lv_obj_t
  g_total_steps_label : Option lv_obj_t
  g_exchanged_minutes_label : Option lv_obj_t
  g_status_label : Option lv_obj_t
  deriving DecidableEq, Repr

/-- The values the variables have when the image is loaded
(their static initialisers). -/
def Globals.boot : Globals :=
  { g_total_steps := 5000
    g_exchanged_minutes := 0
    g_exchangeable_minutes := 0
    g_exchange_value_label := none
    g_total_steps_label := none
    g_exchanged_minutes_label := none
    g_status_label := none }

/-- The function `calculate_exchangeable`. -/
def calculate_exchangeable (s : Globals) : Globals :=
  if s.g_total_steps ≥ u32_mul s.g_exchanged_minutes STEPS_PER_MINUTE then
    { s with
      g_exchangeable_minutes :=
        u32_sub s.g_total_steps (u32_mul s.g_exchanged_minutes STEPS_PER_MINUTE)
          / STEPS_PER_MINUTE }
  else
    { s with g_exchangeable_minutes := 0 }

/-- What `snprintf(buf, size, ...)` leaves in `buf`: at most `size - 1`
characters of the formatted text. -/
def snprintf (size : Nat) (formatted : String) : String :=
  formatted.take (size - 1)

/-- The call `lv_label_set_text(l, t)`. -/
def lv_label_set_text (l : lv_obj_t) (t : String) : lv_obj_t :=
  { l with text := t }

/-- The call `lv_obj_set_style_text_color(l, lv_color_hex(c), LV_PART_MAIN)`. -/
def lv_obj_set_style_text_color (l : lv_obj_t) (c : Nat) : lv_obj_t :=
  { l with text_color := c }

/-- The function `update_ui`. -/
def update_ui (s : Globals) : Globals :=
  let s :=
    match s.g_exchange_value_label with
    | some l =>
      let value_text := snprintf 16 (toString s.g_exchangeable_minutes)
      { s with g_exchange_value_label := some (lv_label_set_text l value_text) }
    | none => s
  let s :=
    match s.g_total_steps_label with
    | some l =>
      let steps_text := snprintf 32 ("Total: " ++ toString s.g_total_steps ++ " steps")
      { s with g_total_steps_label := some (lv_label_set_text l steps_text) }
    | none => s
  match s.g_exchanged_minutes_label with
  | some l =>
    let exchanged_text :=
      snprintf 32 ("Exchanged: " ++ toString s.g_exchanged_minutes ++ " min")
    { s with g_exchanged_minutes_label := some (lv_label_set_text l exchanged_text) }
  | none => s

/-- The status label after `lv_label_set_text` and
`lv_obj_set_style_text_color`, which the callback applies only to a non-NULL
`g_status_label`. -/
def set_status (s : Globals) (t : String) (c : Nat) : Globals :=
  match s.g_status_label with
  | some l =>
    { s with g_status_label := some (lv_obj_set_style_text_color (lv_label_set_text l t) c) }
  | none => s

/-- The callback `exchange_btn_event_cb`.  `code` is what `lv_event_get_code(e)` returns;
the numeric value of LVGL's `LV_EVENT_CLICKED` is the first argument. -/
def exchange_btn_event_cb (LV_EVENT_CLICKED code : Nat) (s : Globals) : Globals :=
  if code = LV_EVENT_CLICKED then
    if s.g_exchangeable_minutes > 0 then
      let s := { s with
        g_exchanged_minutes := u32_add s.g_exchanged_minutes s.g_exchangeable_minutes }
      let s := { s with g_exchangeable_minutes := 0 }
      let s := update_ui s
      set_status s "Success" 0x10B981
    else
      set_status s "No Power" 0xEF4444
  else s

/-- The function `create_ui`: the four labels the program keeps a pointer to, with the text
and colour they are created with. -/
def create_ui (s : Globals) : Globals :=
  { s with
    g_exchange_value_label :=
      some { text := snprintf 16 (toString s.g_exchangeable_minutes), text_color := 0xA855F7 }
    g_total_steps_label :=
      some { text := snprintf 32 ("Total: " ++ toString s.g_total_steps ++ " steps"),
             text_color := 0xA78BFA }
    g_exchanged_minutes_label :=
      some { text := snprintf 32 ("Exchanged: " ++ toString s.g_exchanged_minutes ++ " min"),
             text_color := 0xA78BFA }
    g_status_label := some { text := "Ready", text_color := 0xC4B5FD } }

/-- The function `app_main`.  `disp_ok` says whether `bsp_display_start_with_config`
returned a display; when it did not the function returns before the UI is
built. -/
def app_main (disp_ok : Bool) (s : Globals) : Globals :=
  let s := { s with g_exchanged_minutes := 0 }
  let s := { s with g_total_steps := 5000 }
  if !disp_ok then s
  else
    let s := create_ui s
    let s := calculate_exchangeable s
    update_ui s

/-- One call the program can make on the ledger after start-up. -/
inductive LedgerOp where
  | recompute
  | click
  deriving DecidableEq, Repr

/-- Run one ledger operation; a click is the callback invoked with the
clicked event code. -/
def LedgerOp.run (clk : Nat) : LedgerOp → Globals → Globals
  | .recompute, s => calculate_exchangeable s
  | .click, s => exchange_btn_event_cb clk clk s

/-- Run a sequence of ledger operations, first element first. -/
def runOps (clk : Nat) : List LedgerOp → Globals → Globals
  | [], s => s
  | op :: ops, s => runOps clk ops (op.run clk s)

/-- The ledger invariant that every operation preserves: what has been
exchanged plus what is on offer never costs more steps than were walked. -/
def ledgerInv (s : Globals) : Prop :=
  s.g_total_steps < UINT32_RANGE ∧
  (s.g_exchanged_minutes + s.g_exchangeable_minutes) * STEPS_PER_MINUTE ≤ s.g_total_steps

/-! ## GPIO switch screen (`button_demo/main/stepAI.c`) -/

/-- A call into the ESP-IDF GPIO driver, as the program issues it. -/
inductive GpioCall where
  | gpio_config (pin : Int)
  | gpio_set_level (pin : Int) (level : Nat)
  deriving DecidableEq, Repr

/-- The part of the board's PMOD pin table the program reads: `row1[0]`. -/
structure pmod_pins_t where
  row1_0 : Int
  deriving DecidableEq, Repr

/-- The part of `board_res_desc_t` the program reads: the `PMOD2` pointer. -/
structure board_res_desc_t where
  PMOD2 : Option pmod_pins_t
  deriving DecidableEq, Repr

/-- The file-scope variables of `button_demo/main/stepAI.c`, together with the
driver calls issued so far, oldest first. -/
structure GpioGlobals where
  g_control_pin : Int
  g_pin_state : Bool
  calls : List GpioCall
  deriving DecidableEq, Repr

/-- The values the variables have when the image is loaded; the value of
ESP-IDF's `GPIO_NUM_NC` is the argument. -/
def GpioGlobals.boot (GPIO_NUM_NC : Int) : GpioGlobals :=
  { g_control_pin := GPIO_NUM_NC, g_pin_state := false, calls := [] }

/-- The function `gpio_init`.  `brd` is what `bsp_board_get_description()` returns. -/
def gpio_init (brd : Option board_res_desc_t) (s : GpioGlobals) : GpioGlobals :=
  match brd with
  | none => s
  | some b =>
    match b.PMOD2 with
    | none => s
    | some pmod2 =>
      let s := { s with g_control_pin := pmod2.row1_0 }
      let s := { s with calls := s.calls ++ [GpioCall.gpio_config s.g_control_pin] }
      let s := { s with calls := s.calls ++ [GpioCall.gpio_set_level s.g_control_pin 0] }
      { s with g_pin_state := false }

/-- The function `update_gpio_state`; the value of ESP-IDF's `GPIO_NUM_NC` is
the first argument. -/
def update_gpio_state (GPIO_NUM_NC : Int) (state : Bool) (s : GpioGlobals) : GpioGlobals :=
  if s.g_control_pin = GPIO_NUM_NC then s
  else
    let s := { s with g_pin_state := state }
    { s with calls :=
        s.calls ++ [GpioCall.gpio_set_level s.g_control_pin (if state then 1 else 0)] }

/-- A run of `update_gpio_state` calls, first element first. -/
def runUpdates (GPIO_NUM_NC : Int) : List Bool → GpioGlobals → GpioGlobals
  | [], s => s
  | b :: bs, s => runUpdates GPIO_NUM_NC bs (update_gpio_state GPIO_NUM_NC b s)

/-- The level of the most recent `gpio_set_level` call in a trace, if any. -/
def lastLevel : List GpioCall → Option Nat
  | [] => none
  | c :: cs =>
    match lastLevel cs with
    | some l => some l
    | none =>
      match c with
      | GpioCall.gpio_set_level _ l => some l
      | GpioCall.gpio_config _ => none

/-- The recorded pin state agrees with the last level written, when a level
has been written at all. -/
def levelMatches (s : GpioGlobals) : Prop :=
  ∀ l, lastLevel s.calls = some l → l = if s.g_pin_state then 1 else 0

/-! ### Basic facts about the arithmetic and the frame of each function -/

theorem u32_mul_of_lt {a b : Nat} (h : a * b < UINT32_RANGE) : u32_mul a b = a * b := by
  unfold u32_mul; exact Nat.mod_eq_of_lt h

theorem u32_sub_of_le {a b : Nat} (ha : a < UINT32_RANGE) (hb : b ≤ a) :
    u32_sub a b = a - b := by
  unfold u32_sub UINT32_RANGE at *
  omega

theorem u32_sub_le {a b : Nat} (ha : a < UINT32_RANGE) (hb : b ≤ a) :
    u32_sub a b ≤ a := by
  rw [u32_sub_of_le ha hb]; omega

theorem update_ui_counters (s : Globals) :
    (update_ui s).g_total_steps = s.g_total_steps ∧
    (update_ui s).g_exchanged_minutes = s.g_exchanged_minutes ∧
    (update_ui s).g_exchangeable_minutes = s.g_exchangeable_minutes := by
  obtain ⟨ts, em, ex, l1, l2, l3, l4⟩ := s
  cases l1 <;> cases l2 <;> cases l3 <;> exact ⟨rfl, rfl, rfl⟩

theorem set_status_counters (s : Globals) (t : String) (c : Nat) :
    (set_status s t c).g_total_steps = s.g_total_steps ∧
    (set_status s t c).g_exchanged_minutes = s.g_exchanged_minutes ∧
    (set_status s t c).g_exchangeable_minutes = s.g_exchangeable_minutes := by
  obtain ⟨ts, em, ex, l1, l2, l3, l4⟩ := s
  cases l4 <;> exact ⟨rfl, rfl, rfl⟩

/-- A click with something to exchange. -/
theorem click_pos (clk : Nat) (s : Globals) (h : 0 < s.g_exchangeable_minutes) :
    (exchange_btn_event_cb clk clk s).g_total_steps = s.g_total_steps ∧
    (exchange_btn_event_cb clk clk s).g_exchanged_minutes =
      u32_add s.g_exchanged_minutes s.g_exchangeable_minutes ∧
    (exchange_btn_event_cb clk clk s).g_exchangeable_minutes = 0 := by
  unfold exchange_btn_event_cb
  simp only [if_true, gt_iff_lt, h]
  refine ⟨?_, ?_, ?_⟩
  · rw [(set_status_counters _ _ _).1, (update_ui_counters _).1]
  · rw [(set_status_counters _ _ _).2.1, (update_ui_counters _).2.1]
  · rw [(set_status_counters _ _ _).2.2, (update_ui_counters _).2.2]

/-- A click with nothing to exchange. -/
theorem click_zero (clk : Nat) (s : Globals) (h : s.g_exchangeable_minutes = 0) :
    exchange_btn_event_cb clk clk s = set_status s "No Power" 0xEF4444 := by
  unfold exchange_btn_event_cb
  simp [h]

/-- The value `calculate_exchangeable` stores, as a function of the two
counters it reads. -/
theorem calculate_exchangeable_value (s : Globals) :
    (calculate_exchangeable s).g_exchangeable_minutes =
      if s.g_total_steps ≥ u32_mul s.g_exchanged_minutes STEPS_PER_MINUTE then
        u32_sub s.g_total_steps (u32_mul s.g_exchanged_minutes STEPS_PER_MINUTE)
          / STEPS_PER_MINUTE
      else 0 := by
  unfold calculate_exchangeable
  split <;> rfl

theorem calculate_exchangeable_frame (s : Globals) :
    (calculate_exchangeable s).g_total_steps = s.g_total_steps ∧
    (calculate_exchangeable s).g_exchanged_minutes = s.g_exchanged_minutes := by
  unfold calculate_exchangeable
  split <;> exact ⟨rfl, rfl⟩

/-- Without wrap-around the stored value is the floor of the unspent steps
over the rate. -/
theorem calculate_exchangeable_exact (s : Globals)
    (ht : s.g_total_steps < UINT32_RANGE)
    (h : s.g_exchanged_minutes * STEPS_PER_MINUTE ≤ s.g_total_steps) :
    (calculate_exchangeable s).g_exchangeable_minutes =
      (s.g_total_steps - s.g_exchanged_minutes * STEPS_PER_MINUTE) / STEPS_PER_MINUTE := by
  have hm : u32_mul s.g_exchanged_minutes STEPS_PER_MINUTE =
      s.g_exchanged_minutes * STEPS_PER_MINUTE :=
    u32_mul_of_lt (lt_of_le_of_lt h ht)
  rw [calculate_exchangeable_value, hm, if_pos h, u32_sub_of_le ht h]

/-- What a click does to the three counters, in both branches. -/
theorem click_counters (clk : Nat) (s : Globals) :
    (exchange_btn_event_cb clk clk s).g_total_steps = s.g_total_steps ∧
    (exchange_btn_event_cb clk clk s).g_exchanged_minutes =
      (if 0 < s.g_exchangeable_minutes
        then u32_add s.g_exchanged_minutes s.g_exchangeable_minutes
        else s.g_exchanged_minutes) ∧
    (exchange_btn_event_cb clk clk s).g_exchangeable_minutes = 0 := by
  by_cases h : 0 < s.g_exchangeable_minutes
  · rw [if_pos h]; exact click_pos clk s h
  · have h0 : s.g_exchangeable_minutes = 0 := by omega
    rw [if_neg h, click_zero clk s h0]
    obtain ⟨h1, h2, h3⟩ := set_status_counters s "No Power" 0xEF4444
    exact ⟨h1, h2, by rw [h3, h0]⟩

theorem ledgerInv_calculate (s : Globals) (ht : s.g_total_steps < UINT32_RANGE)
    (h : s.g_exchanged_minutes * STEPS_PER_MINUTE ≤ s.g_total_steps) :
    ledgerInv (calculate_exchangeable s) := by
  obtain ⟨h1, h2⟩ := calculate_exchangeable_frame s
  have h3 := calculate_exchangeable_exact s ht h
  unfold ledgerInv
  rw [h1, h2, h3]
  unfold STEPS_PER_MINUTE at *
  omega

theorem ledgerInv_click (clk : Nat) (s : Globals) (h : ledgerInv s) :
    ledgerInv (exchange_btn_event_cb clk clk s) := by
  obtain ⟨h1, h2, h3⟩ := click_counters clk s
  obtain ⟨ht, hi⟩ := h
  unfold ledgerInv
  rw [h1, h2, h3]
  unfold u32_add UINT32_RANGE STEPS_PER_MINUTE at *
  split <;> omega

theorem ledgerInv_run (clk : Nat) (op : LedgerOp) (s : Globals) (h : ledgerInv s) :
    ledgerInv (op.run clk s) ∧ (op.run clk s).g_total_steps = s.g_total_steps := by
  cases op with
  | recompute =>
    have hle : s.g_exchanged_minutes * STEPS_PER_MINUTE ≤ s.g_total_steps := by
      have := h.2
      unfold STEPS_PER_MINUTE at *
      omega
    exact ⟨ledgerInv_calculate s h.1 hle, (calculate_exchangeable_frame s).1⟩
  | click => exact ⟨ledgerInv_click clk s h, (click_counters clk s).1⟩

theorem ledgerInv_runOps (clk : Nat) (ops : List LedgerOp) :
    ∀ s : Globals, ledgerInv s →
      ledgerInv (runOps clk ops s) ∧ (runOps clk ops s).g_total_steps = s.g_total_steps := by
  induction ops with
  | nil => intro s h; exact ⟨h, rfl⟩
  | cons op ops ih =>
    intro s h
    obtain ⟨h1, h2⟩ := ledgerInv_run clk op s h
    obtain ⟨h3, h4⟩ := ih (op.run clk s) h1
    exact ⟨h3, by rw [← h2]; exact h4⟩

theorem lastLevel_append_set (cs : List GpioCall) (pin : Int) (l : Nat) :
    lastLevel (cs ++ [GpioCall.gpio_set_level pin l]) = some l := by
  induction cs with
  | nil => rfl
  | cons c cs ih => simp [lastLevel, ih]

theorem levelMatches_update (nc : Int) (b : Bool) (s : GpioGlobals) (h : levelMatches s) :
    levelMatches (update_gpio_state nc b s) := by
  unfold update_gpio_state
  split
  · exact h
  · intro l hl
    simp only [lastLevel_append_set, Option.some.injEq] at hl
    exact hl.symm

theorem levelMatches_init (brd : Option board_res_desc_t) (s : GpioGlobals)
    (h : levelMatches s) : levelMatches (gpio_init brd s) := by
  unfold gpio_init
  split
  · exact h
  · split
    · exact h
    · intro l hl
      simp only [lastLevel_append_set, Option.some.injEq] at hl
      simp [← hl]

theorem levelMatches_runUpdates (nc : Int) (bs : List Bool) :
    ∀ s : GpioGlobals, levelMatches s → levelMatches (runUpdates nc bs s) := by
  induction bs with
  | nil => intro s h; exact h
  | cons b bs ih => intro s h; exact ih _ (levelMatches_update nc b s h)

/-- The counters `app_main` leaves when the display came up. -/
theorem app_main_counters (s : Globals) :
    (app_main true s).g_total_steps = 5000 ∧
    (app_main true s).g_exchanged_minutes = 0 ∧
    (app_main true s).g_exchangeable_minutes = 5 := by
  have e : app_main true s =
      update_ui (calculate_exchangeable
        (create_ui { { s with g_exchanged_minutes := 0 } with g_total_steps := 5000 })) := by
    simp only [app_main, Bool.not_true, Bool.false_eq_true, if_false]
  generalize hu : create_ui { { s with g_exchanged_minutes := 0 } with g_total_steps := 5000 }
    = u at e
  have ht : u.g_total_steps = 5000 := by rw [← hu]; rfl
  have he : u.g_exchanged_minutes = 0 := by rw [← hu]; rfl
  obtain ⟨a, b, c⟩ := update_ui_counters (calculate_exchangeable u)
  obtain ⟨f1, f2⟩ := calculate_exchangeable_frame u
  have v := calculate_exchangeable_exact u
    (by rw [ht]; unfold UINT32_RANGE; norm_num) (by rw [ht, he]; omega)
  rw [e, a, b, c, f1, f2, v, ht, he]
  exact ⟨rfl, rfl, by unfold STEPS_PER_MINUTE; norm_num⟩

/-- The first click after `app_main`, and the recompute after it. -/
theorem app_main_click (clk : Nat) (s : Globals) :
    (exchange_btn_event_cb clk clk (app_main true s)).g_exchanged_minutes = 5 ∧
    (calculate_exchangeable
      (exchange_btn_event_cb clk clk (app_main true s))).g_exchangeable_minutes = 0 := by
  obtain ⟨a, b, c⟩ := app_main_counters s
  obtain ⟨c1, c2, _⟩ := click_counters clk (app_main true s)
  rw [a] at c1
  rw [b, c] at c2
  have c5 : (exchange_btn_event_cb clk clk (app_main true s)).g_exchanged_minutes = 5 := by
    rw [c2]; unfold u32_add UINT32_RANGE; norm_num
  refine ⟨c5, ?_⟩
  rw [calculate_exchangeable_exact _ (by rw [c1]; unfold UINT32_RANGE; norm_num)
    (by rw [c1, c5]; unfold STEPS_PER_MINUTE; norm_num), c1, c5]
  unfold STEPS_PER_MINUTE
  norm_num

/-! ## The claims -/

/-- C1: for 32-bit counters with `exchanged_minutes * 1000 ≤ total_steps` (a
product of natural numbers), `calculate_exchangeable` stores
`floor((total_steps - exchanged_minutes * 1000) / 1000)`; in particular 5000
steps with nothing exchanged give 5, and 5999 steps give 5 as well. -/
theorem C1_calculate_exchangeable_floor (s : Globals)
    (ht : s.g_total_steps < 2 ^ 32) (_he : s.g_exchanged_minutes < 2 ^ 32)
    (h : s.g_exchanged_minutes * 1000 ≤ s.g_total_steps) :
    (calculate_exchangeable s).g_exchangeable_minutes =
        (s.g_total_steps - s.g_exchanged_minutes * 1000) / 1000 ∧
    (s.g_total_steps = 5000 → s.g_exchanged_minutes = 0 →
        (calculate_exchangeable s).g_exchangeable_minutes = 5) ∧
    (s.g_total_steps = 5999 → s.g_exchanged_minutes = 0 →
        (calculate_exchangeable s).g_exchangeable_minutes = 5) := by
  have key := calculate_exchangeable_exact s ht h
  unfold STEPS_PER_MINUTE at key
  refine ⟨key, ?_, ?_⟩
  · intro h1 h2; rw [key, h1, h2]
  · intro h1 h2; rw [key, h1, h2]

theorem C1_witness :
    (calculate_exchangeable Globals.boot).g_exchangeable_minutes = 5 ∧
    (calculate_exchangeable { Globals.boot with g_total_steps := 5999 }).g_exchangeable_minutes
      = 5 :=
  ⟨(C1_calculate_exchangeable_floor Globals.boot (by decide) (by decide) (by decide)).2.1
      rfl rfl,
   (C1_calculate_exchangeable_floor { Globals.boot with g_total_steps := 5999 }
      (by decide) (by decide) (by decide)).2.2 rfl rfl⟩

/-- C2: from any start with nothing exchanged and nothing on offer, every
finite sequence of `calculate_exchangeable` calls and exchange-button clicks
leaves `exchanged_minutes * 1000 ≤ total_steps` as natural numbers, so the
product stays inside the 32-bit range; `total_steps` is never written. -/
theorem C2_exchanged_never_exceeds_total (clk : Nat) (ops : List LedgerOp) (s : Globals)
    (ht : s.g_total_steps < 2 ^ 32) (he : s.g_exchanged_minutes = 0)
    (hx : s.g_exchangeable_minutes = 0) :
    (runOps clk ops s).g_exchanged_minutes * 1000 ≤ (runOps clk ops s).g_total_steps ∧
    (runOps clk ops s).g_exchanged_minutes * 1000 < 2 ^ 32 ∧
    (runOps clk ops s).g_total_steps = s.g_total_steps := by
  have h0 : ledgerInv s := by
    unfold ledgerInv UINT32_RANGE STEPS_PER_MINUTE
    rw [he, hx]
    exact ⟨ht, by omega⟩
  obtain ⟨⟨h1, h2⟩, h3⟩ := ledgerInv_runOps clk ops s h0
  unfold UINT32_RANGE at h1
  unfold STEPS_PER_MINUTE at h2
  refine ⟨by omega, by omega, h3⟩

theorem C2_witness :
    (runOps 7 [LedgerOp.recompute, LedgerOp.click, LedgerOp.click, LedgerOp.recompute]
        Globals.boot).g_exchanged_minutes * 1000 ≤
      (runOps 7 [LedgerOp.recompute, LedgerOp.click, LedgerOp.click, LedgerOp.recompute]
        Globals.boot).g_total_steps :=
  (C2_exchanged_never_exceeds_total 7
    [LedgerOp.recompute, LedgerOp.click, LedgerOp.click, LedgerOp.recompute]
    Globals.boot (by decide) rfl rfl).1

/-- C3: on a ledger with `exchanged_minutes * 1000 ≤ total_steps`, recompute,
click, recompute leaves nothing on offer, and the click adds to
`exchanged_minutes` exactly what the first recompute produced; from 5000
steps with nothing exchanged the click redeems 5 and the next recompute
gives 0. -/
theorem C3_redeem_then_recompute_zero (clk : Nat) (s : Globals)
    (ht : s.g_total_steps < 2 ^ 32)
    (h : s.g_exchanged_minutes * 1000 ≤ s.g_total_steps) :
    (calculate_exchangeable
        (exchange_btn_event_cb clk clk (calculate_exchangeable s))).g_exchangeable_minutes = 0 ∧
    (exchange_btn_event_cb clk clk (calculate_exchangeable s)).g_exchanged_minutes =
      s.g_exchanged_minutes + (calculate_exchangeable s).g_exchangeable_minutes ∧
    (s.g_total_steps = 5000 → s.g_exchanged_minutes = 0 →
      (calculate_exchangeable s).g_exchangeable_minutes = 5 ∧
      (exchange_btn_event_cb clk clk (calculate_exchangeable s)).g_exchanged_minutes = 5) ∧
    (∀ s0 : Globals,
      (app_main true s0).g_exchangeable_minutes = 5 ∧
      (exchange_btn_event_cb clk clk (app_main true s0)).g_exchanged_minutes = 5 ∧
      (calculate_exchangeable
        (exchange_btn_event_cb clk clk (app_main true s0))).g_exchangeable_minutes = 0) := by
  obtain ⟨f1, f2⟩ := calculate_exchangeable_frame s
  have v1 := calculate_exchangeable_exact s ht h
  obtain ⟨c1, c2, c3⟩ := click_counters clk (calculate_exchangeable s)
  rw [f2] at c2
  rw [f1] at c1
  have hsum : (exchange_btn_event_cb clk clk (calculate_exchangeable s)).g_exchanged_minutes =
      s.g_exchanged_minutes + (calculate_exchangeable s).g_exchangeable_minutes := by
    rw [c2, v1]
    unfold u32_add UINT32_RANGE STEPS_PER_MINUTE
    split <;> omega
  have hle : (exchange_btn_event_cb clk clk (calculate_exchangeable s)).g_exchanged_minutes
      * STEPS_PER_MINUTE ≤
      (exchange_btn_event_cb clk clk (calculate_exchangeable s)).g_total_steps := by
    rw [hsum, c1, v1]
    unfold STEPS_PER_MINUTE
    omega
  have v2 := calculate_exchangeable_exact
    (exchange_btn_event_cb clk clk (calculate_exchangeable s)) (by rw [c1]; exact ht) hle
  refine ⟨?_, hsum, ?_, ?_⟩
  · rw [v2, hsum, c1, v1]
    unfold STEPS_PER_MINUTE
    omega
  · intro h1 h2
    have v5 : (calculate_exchangeable s).g_exchangeable_minutes = 5 := by
      rw [v1, h1, h2]; rfl
    exact ⟨v5, by rw [hsum, v5, h2]⟩
  · intro s0
    exact ⟨(app_main_counters s0).2.2, (app_main_click clk s0).1, (app_main_click clk s0).2⟩

theorem C3_witness :
    (calculate_exchangeable
        (exchange_btn_event_cb 7 7 (calculate_exchangeable Globals.boot))).g_exchangeable_minutes
      = 0 ∧
    (exchange_btn_event_cb 7 7 (calculate_exchangeable Globals.boot)).g_exchanged_minutes = 5 :=
  ⟨(C3_redeem_then_recompute_zero 7 Globals.boot (by decide) (by decide)).1,
   ((C3_redeem_then_recompute_zero 7 Globals.boot (by decide) (by decide)).2.2.1 rfl rfl).2⟩

/-- C4: a second exchange-button click right after a first one redeems
nothing: it leaves `total_steps`, `exchanged_minutes` and
`exchangeable_minutes` exactly as the first click left them. -/
theorem C4_double_click_idempotent (clk : Nat) (s : Globals) :
    (exchange_btn_event_cb clk clk (exchange_btn_event_cb clk clk s)).g_total_steps =
      (exchange_btn_event_cb clk clk s).g_total_steps ∧
    (exchange_btn_event_cb clk clk (exchange_btn_event_cb clk clk s)).g_exchanged_minutes =
      (exchange_btn_event_cb clk clk s).g_exchanged_minutes ∧
    (exchange_btn_event_cb clk clk (exchange_btn_event_cb clk clk s)).g_exchangeable_minutes =
      (exchange_btn_event_cb clk clk s).g_exchangeable_minutes ∧
    u32_sub (exchange_btn_event_cb clk clk (exchange_btn_event_cb clk clk s)).g_exchanged_minutes
      (exchange_btn_event_cb clk clk s).g_exchanged_minutes = 0 := by
  obtain ⟨_, _, a3⟩ := click_counters clk s
  obtain ⟨b1, b2, b3⟩ := click_counters clk (exchange_btn_event_cb clk clk s)
  rw [a3] at b2
  simp only [lt_irrefl, if_false] at b2
  refine ⟨b1, b2, by rw [b3, a3], ?_⟩
  rw [b2]
  unfold u32_sub UINT32_RANGE
  omega

/-- C5: with nothing on offer, an exchange-button click redeems nothing and
leaves `total_steps`, `exchanged_minutes` and `exchangeable_minutes` as they
were; it is the branch that shows "No Power" on the status label.  With 500
steps and nothing exchanged, `calculate_exchangeable` offers 0 and the click
after it changes no counter. -/
theorem C5_click_with_nothing_to_redeem (clk : Nat) (s : Globals)
    (h : s.g_exchangeable_minutes = 0) :
    ((exchange_btn_event_cb clk clk s).g_total_steps = s.g_total_steps ∧
     (exchange_btn_event_cb clk clk s).g_exchanged_minutes = s.g_exchanged_minutes ∧
     (exchange_btn_event_cb clk clk s).g_exchangeable_minutes = s.g_exchangeable_minutes) ∧
    (exchange_btn_event_cb clk clk s).g_status_label =
      s.g_status_label.map (fun _ => { text := "No Power", text_color := 0xEF4444 }) ∧
    (∀ t : Globals, t.g_total_steps = 500 → t.g_exchanged_minutes = 0 →
      (calculate_exchangeable t).g_exchangeable_minutes = 0 ∧
      (exchange_btn_event_cb clk clk (calculate_exchangeable t)).g_total_steps = 500 ∧
      (exchange_btn_event_cb clk clk (calculate_exchangeable t)).g_exchanged_minutes = 0 ∧
      (exchange_btn_event_cb clk clk (calculate_exchangeable t)).g_exchangeable_minutes = 0) := by
  rw [click_zero clk s h]
  refine ⟨set_status_counters s _ _, ?_, ?_⟩
  · obtain ⟨ts, em, ex, l1, l2, l3, l4⟩ := s
    cases l4 <;> rfl
  · intro t h1 h2
    obtain ⟨f1, f2⟩ := calculate_exchangeable_frame t
    have hv : (calculate_exchangeable t).g_exchangeable_minutes = 0 := by
      rw [calculate_exchangeable_exact t (by rw [h1]; decide) (by rw [h1, h2]; decide), h1, h2]
      rfl
    rw [click_zero clk _ hv]
    obtain ⟨a, b, c⟩ := set_status_counters (calculate_exchangeable t) "No Power" 0xEF4444
    exact ⟨hv, by rw [a, f1, h1], by rw [b, f2, h2], by rw [c, hv]⟩

theorem C5_witness :
    (exchange_btn_event_cb 7 7
      (calculate_exchangeable { Globals.boot with g_total_steps := 500 })).g_exchanged_minutes
      = 0 ∧
    (exchange_btn_event_cb 7 7 (create_ui { Globals.boot with g_total_steps := 500 })).g_status_label
      = some { text := "No Power", text_color := 0xEF4444 } :=
  ⟨((C5_click_with_nothing_to_redeem 7 Globals.boot rfl).2.2
      { Globals.boot with g_total_steps := 500 } rfl rfl).2.2.1,
   (C5_click_with_nothing_to_redeem 7 (create_ui { Globals.boot with g_total_steps := 500 })
      rfl).2.1⟩

/-- C6: with `m > 0` minutes on offer, an exchange-button click sets
`exchanged_minutes` to the old value plus `m` in 32-bit unsigned arithmetic,
sets `exchangeable_minutes` to 0, leaves `total_steps` alone, and the amount
redeemed (new minus old `exchanged_minutes`, as a `uint32_t`) is `m`. -/
theorem C6_click_redeems_all (clk : Nat) (s : Globals)
    (_he : s.g_exchanged_minutes < 2 ^ 32) (hx : s.g_exchangeable_minutes < 2 ^ 32)
    (h : 0 < s.g_exchangeable_minutes) :
    (exchange_btn_event_cb clk clk s).g_exchanged_minutes =
      (s.g_exchanged_minutes + s.g_exchangeable_minutes) % 2 ^ 32 ∧
    (exchange_btn_event_cb clk clk s).g_exchangeable_minutes = 0 ∧
    (exchange_btn_event_cb clk clk s).g_total_steps = s.g_total_steps ∧
    u32_sub (exchange_btn_event_cb clk clk s).g_exchanged_minutes s.g_exchanged_minutes =
      s.g_exchangeable_minutes := by
  obtain ⟨h1, h2, h3⟩ := click_pos clk s h
  refine ⟨h2, h3, h1, ?_⟩
  rw [h2]
  unfold u32_sub u32_add UINT32_RANGE
  omega

theorem C6_witness :
    (exchange_btn_event_cb 7 7 (calculate_exchangeable Globals.boot)).g_exchanged_minutes
      = (0 + 5) % 2 ^ 32 :=
  (C6_click_redeems_all 7 (calculate_exchangeable Globals.boot)
    (by decide) (by decide) (by decide)).1

/-- C8: `calculate_exchangeable` writes only `exchangeable_minutes`; the value
it stores is determined by `total_steps` and `exchanged_minutes` alone, not
by the value cached before; so a second call in a row changes nothing. -/
theorem C8_calculate_exchangeable_pure (s s' : Globals) :
    ((calculate_exchangeable s).g_total_steps = s.g_total_steps ∧
     (calculate_exchangeable s).g_exchanged_minutes = s.g_exchanged_minutes ∧
     (calculate_exchangeable s).g_exchange_value_label = s.g_exchange_value_label ∧
     (calculate_exchangeable s).g_total_steps_label = s.g_total_steps_label ∧
     (calculate_exchangeable s).g_exchanged_minutes_label = s.g_exchanged_minutes_label ∧
     (calculate_exchangeable s).g_status_label = s.g_status_label) ∧
    (s'.g_total_steps = s.g_total_steps → s'.g_exchanged_minutes = s.g_exchanged_minutes →
      (calculate_exchangeable s').g_exchangeable_minutes =
        (calculate_exchangeable s).g_exchangeable_minutes) ∧
    calculate_exchangeable (calculate_exchangeable s) = calculate_exchangeable s := by
  refine ⟨?_, ?_, ?_⟩
  · unfold calculate_exchangeable
    split <;> exact ⟨rfl, rfl, rfl, rfl, rfl, rfl⟩
  · intro h1 h2
    rw [calculate_exchangeable_value, calculate_exchangeable_value, h1, h2]
  · unfold calculate_exchangeable
    split <;> simp_all

theorem C8_witness :
    (calculate_exchangeable { Globals.boot with g_exchangeable_minutes := 99 }).g_exchangeable_minutes
      = (calculate_exchangeable Globals.boot).g_exchangeable_minutes :=
  (C8_calculate_exchangeable_pure Globals.boot
    { Globals.boot with g_exchangeable_minutes := 99 }).2.1 rfl rfl

/-- C9: for all 32-bit `total_steps` and `exchanged_minutes`, also where
`exchanged_minutes * 1000` wraps modulo `2 ^ 32`, the value
`calculate_exchangeable` stores is at most `floor(total_steps / 1000)`. -/
theorem C9_exchangeable_at_most_total (s : Globals)
    (ht : s.g_total_steps < 2 ^ 32) (_he : s.g_exchanged_minutes < 2 ^ 32) :
    (calculate_exchangeable s).g_exchangeable_minutes ≤ s.g_total_steps / 1000 := by
  rw [calculate_exchangeable_value]
  split
  · next hge =>
    have := u32_sub_le ht hge
    unfold STEPS_PER_MINUTE
    exact Nat.div_le_div_right this
  · exact Nat.zero_le _

theorem C9_witness :
    (calculate_exchangeable
      { Globals.boot with g_exchanged_minutes := 4294968 }).g_exchangeable_minutes ≤ 5000 / 1000 :=
  C9_exchangeable_at_most_total { Globals.boot with g_exchanged_minutes := 4294968 }
    (by decide) (by decide)

/-- C10: `update_gpio_state s` does nothing while the control pin is
`GPIO_NUM_NC`: the recorded pin state stays and no level is written.  On any
other pin it records `s` and writes level 1 for true, 0 for false, to that
pin.  Hence after `gpio_init` and any run of updates the recorded state is
the last level written. -/
theorem C10_update_gpio_state_guarded (nc : Int) (state : Bool) (s : GpioGlobals) :
    (s.g_control_pin = nc → update_gpio_state nc state s = s) ∧
    (s.g_control_pin ≠ nc →
      (update_gpio_state nc state s).g_pin_state = state ∧
      (update_gpio_state nc state s).g_control_pin = s.g_control_pin ∧
      (update_gpio_state nc state s).calls =
        s.calls ++ [GpioCall.gpio_set_level s.g_control_pin (if state then 1 else 0)]) ∧
    (∀ (brd : Option board_res_desc_t) (bs : List Bool),
      levelMatches (runUpdates nc bs (gpio_init brd (GpioGlobals.boot nc)))) := by
  refine ⟨?_, ?_, ?_⟩
  · intro h
    unfold update_gpio_state
    rw [if_pos h]
  · intro h
    unfold update_gpio_state
    rw [if_neg h]
    exact ⟨rfl, rfl, rfl⟩
  · intro brd bs
    apply levelMatches_runUpdates
    apply levelMatches_init
    intro l hl
    simp [GpioGlobals.boot, lastLevel] at hl

theorem C10_witness :
    update_gpio_state (-1) true (GpioGlobals.boot (-1)) = GpioGlobals.boot (-1) ∧
    (update_gpio_state (-1) true
      (gpio_init (some { PMOD2 := some { row1_0 := 9 } }) (GpioGlobals.boot (-1)))).calls =
      [GpioCall.gpio_config 9, GpioCall.gpio_set_level 9 0, GpioCall.gpio_set_level 9 1] :=
  ⟨(C10_update_gpio_state_guarded (-1) true (GpioGlobals.boot (-1))).1 rfl,
   ((C10_update_gpio_state_guarded (-1) true
      (gpio_init (some { PMOD2 := some { row1_0 := 9 } }) (GpioGlobals.boot (-1)))).2.1
      (by decide)).2.2⟩

end StepAI
